import Mathlib

/-
Verification of the esthree library (src/lib/bucket.js): a promise-returning
facade over a callback-style S3 client.  The embedding models JavaScript
values with an inductive `Value` type, request objects as association lists
where a later binding shadows an earlier one (the semantics of object spread
`{...opts, Bucket: b}`), and the backend client as a function from outgoing
calls to the `(err, data)` pair its completion callback is invoked with.
Each method of the `Bucket` class is a pure function returning the handle
state after the body runs (the body contains no assignments), the single
outgoing backend call it issues, and the settled promise outcome
(`Except.error e` for a rejection with `e`, `Except.ok v` for a resolution
with `v`).
-/

namespace Esthree

/-- A JavaScript value, as far as this library inspects one: the library only
ever tests truthiness of `err`, compares `data` against `null` with strict
inequality, and builds strings.  Arbitrary backend objects (error objects,
response records) are represented opaquely by `vOpaque`. -/
inductive Value where
  | vNull
  | vUndefined
  | vBool (b : Bool)
  | vNum (n : Int)
  | vStr (s : String)
  | vOpaque (id : Nat)
  deriving DecidableEq, Repr

/-- JavaScript truthiness, restricted to the values of `Value`:
`null`, `undefined`, `false`, `0` and `""` are falsy, all else truthy. -/
def Value.truthy : Value → Bool
  | .vNull => false
  | .vUndefined => false
  | .vBool b => b
  | .vNum n => n != 0
  | .vStr s => s != ""
  | .vOpaque _ => true

/-- A request-field mapping.  Fields are listed in write order; a later
binding for the same name shadows an earlier one, which is exactly the
semantics of `{...opts, Bucket: b, Key: k}`: the spread fields come first
and the literal fields written after them override. -/
def Fields : Type := List (String × Value)

/-- Property read on a request mapping: the value of the last binding for
the given name, if any. -/
def lookupLast : List (String × Value) → String → Option Value
  | [], _ => none
  | (k, v) :: rest, key =>
    match lookupLast rest key with
    | some w => some w
    | none => if k = key then some v else none

/-- One outgoing call to the backend client: the SDK method name and the
request-field mapping passed to it. -/
structure Call where
  op : String
  params : List (String × Value)
  deriving DecidableEq, Repr

/-- A behaviour of the backend client: for each outgoing call, the
`(err, data)` pair the client invokes the completion callback with. -/
def Backend : Type := Call → Value × Value

/-- The `Bucket` class: `constructor(client, bucket)` stores the client
reference and the bucket name.  The client is opaque to this layer and is
represented by an identifier. -/
structure Bucket where
  client : Nat
  bucket : String
  deriving DecidableEq, Repr

/-- Result of one `Bucket` method invocation: the handle after the body ran
(the source assigns to no field outside the constructor), the single
outgoing backend call, and the settled promise. -/
structure MethodResult (α : Type) where
  self : Bucket
  call : Call
  outcome : Except Value α
  deriving Repr

/-- Result of one module-level lifecycle function invocation. -/
structure FreeResult (α : Type) where
  call : Call
  outcome : Except Value α
  deriving Repr

/-- `location(opts)`: `getBucketLocation({...opts, Bucket: this.bucket})`,
callback `err ? reject(err) : resolve(data)`. -/
def Bucket.location (b : Bucket) (backend : Backend) (opts : List (String × Value)) :
    MethodResult Value :=
  let call : Call := ⟨"getBucketLocation", opts ++ [("Bucket", .vStr b.bucket)]⟩
  let r := backend call
  ⟨b, call, if r.1.truthy then .error r.1 else .ok r.2⟩

/-- `get(key, opts)`: `getObject({...opts, Bucket: this.bucket, Key: key})`,
callback `err ? reject(err) : resolve(data)`. -/
def Bucket.get (b : Bucket) (backend : Backend) (key : String)
    (opts : List (String × Value)) : MethodResult Value :=
  let call : Call := ⟨"getObject", opts ++ [("Bucket", .vStr b.bucket), ("Key", .vStr key)]⟩
  let r := backend call
  ⟨b, call, if r.1.truthy then .error r.1 else .ok r.2⟩

/-- `has(key, opts)`: `headObject({...opts, Bucket: this.bucket, Key: key})`,
callback `resolve(!err && data !== null)` — the promise has no rejection
path. -/
def Bucket.has (b : Bucket) (backend : Backend) (key : String)
    (opts : List (String × Value)) : MethodResult Bool :=
  let call : Call := ⟨"headObject", opts ++ [("Bucket", .vStr b.bucket), ("Key", .vStr key)]⟩
  let r := backend call
  ⟨b, call, .ok (!r.1.truthy && r.2 != Value.vNull)⟩

/-- `head(key, opts)`: `headObject({...opts, Bucket: this.bucket, Key: key})`,
callback `err ? reject(err) : resolve(data)`. -/
def Bucket.head (b : Bucket) (backend : Backend) (key : String)
    (opts : List (String × Value)) : MethodResult Value :=
  let call : Call := ⟨"headObject", opts ++ [("Bucket", .vStr b.bucket), ("Key", .vStr key)]⟩
  let r := backend call
  ⟨b, call, if r.1.truthy then .error r.1 else .ok r.2⟩

/-- `put(key, body, opts)`:
`putObject({...opts, Bucket: this.bucket, Key: key, Body: body})`,
callback `err ? reject(err) : resolve(data)`. -/
def Bucket.put (b : Bucket) (backend : Backend) (key : String) (body : Value)
    (opts : List (String × Value)) : MethodResult Value :=
  let call : Call :=
    ⟨"putObject", opts ++ [("Bucket", .vStr b.bucket), ("Key", .vStr key), ("Body", body)]⟩
  let r := backend call
  ⟨b, call, if r.1.truthy then .error r.1 else .ok r.2⟩

/-- `remove(key, opts)`: `deleteObject({...opts, Bucket: this.bucket, Key: key})`,
callback `err => err ? reject(err) : resolve()` — the data argument is
never read and the resolution carries no value. -/
def Bucket.remove (b : Bucket) (backend : Backend) (key : String)
    (opts : List (String × Value)) : MethodResult Unit :=
  let call : Call := ⟨"deleteObject", opts ++ [("Bucket", .vStr b.bucket), ("Key", .vStr key)]⟩
  let r := backend call
  ⟨b, call, if r.1.truthy then .error r.1 else .ok ()⟩

/-- `copy(source, target, opts)`:
`copyObject({...opts, Bucket: this.bucket, Key: target,
CopySource: this.bucket + "/" + source})`,
callback `err ? reject(err) : resolve(data)`. -/
def Bucket.copy (b : Bucket) (backend : Backend) (source target : String)
    (opts : List (String × Value)) : MethodResult Value :=
  let call : Call :=
    ⟨"copyObject",
      opts ++ [("Bucket", .vStr b.bucket), ("Key", .vStr target),
               ("CopySource", .vStr (b.bucket ++ "/" ++ source))]⟩
  let r := backend call
  ⟨b, call, if r.1.truthy then .error r.1 else .ok r.2⟩

/-- Module-level `create(client, bucket, opts)`:
`createBucket({...opts, Bucket: bucket})`, callback
`err ? reject(err) : resolve(new Bucket(client, bucket))`. -/
def create (client : Nat) (bucket : String) (backend : Backend)
    (opts : List (String × Value)) : FreeResult Bucket :=
  let call : Call := ⟨"createBucket", opts ++ [("Bucket", .vStr bucket)]⟩
  let r := backend call
  ⟨call, if r.1.truthy then .error r.1 else .ok ⟨client, bucket⟩⟩

/-- Module-level `get(client, bucket, opts)`:
`headBucket({...opts, Bucket: bucket})`, callback
`err ? reject(err) : resolve(new Bucket(client, bucket))`. -/
def getBucket (client : Nat) (bucket : String) (backend : Backend)
    (opts : List (String × Value)) : FreeResult Bucket :=
  let call : Call := ⟨"headBucket", opts ++ [("Bucket", .vStr bucket)]⟩
  let r := backend call
  ⟨call, if r.1.truthy then .error r.1 else .ok ⟨client, bucket⟩⟩

/-- Module-level `has(client, bucket, opts)`:
`headBucket({...opts, Bucket: bucket})`, callback
`resolve(!err && data !== null)` — no rejection path. -/
def hasBucket (client : Nat) (bucket : String) (backend : Backend)
    (opts : List (String × Value)) : FreeResult Bool :=
  let call : Call := ⟨"headBucket", opts ++ [("Bucket", .vStr bucket)]⟩
  let r := backend call
  let _ := client
  ⟨call, .ok (!r.1.truthy && r.2 != Value.vNull)⟩

/-- Module-level `remove(client, bucket, opts)`:
`deleteBucket({...opts, Bucket: bucket})`, callback
`err => err ? reject(err) : resolve()`. -/
def removeBucket (client : Nat) (bucket : String) (backend : Backend)
    (opts : List (String × Value)) : FreeResult Unit :=
  let call : Call := ⟨"deleteBucket", opts ++ [("Bucket", .vStr bucket)]⟩
  let r := backend call
  let _ := client
  ⟨call, if r.1.truthy then .error r.1 else .ok ()⟩

/-! ### Lookup lemmas for spread-with-override -/

theorem lookupLast_append (xs ys : List (String × Value)) (k : String) :
    lookupLast (xs ++ ys) k =
      match lookupLast ys k with
      | some v => some v
      | none => lookupLast xs k := by
  induction xs with
  | nil =>
    simp only [List.nil_append, lookupLast]
    cases lookupLast ys k <;> rfl
  | cons hd tl ih =>
    obtain ⟨hk, hv⟩ := hd
    have step : ∀ rest : List (String × Value), lookupLast ((hk, hv) :: rest) k =
        match lookupLast rest k with
        | some w => some w
        | none => if hk = k then some hv else none := fun _ => rfl
    rw [List.cons_append, step, ih, step]
    cases lookupLast ys k
    · cases lookupLast tl k <;> rfl
    · rfl

theorem lookupLast_append_hit (xs ys : List (String × Value)) (k : String) (v : Value)
    (h : lookupLast ys k = some v) : lookupLast (xs ++ ys) k = some v := by
  rw [lookupLast_append, h]

theorem lookupLast_append_miss (xs ys : List (String × Value)) (k : String)
    (h : lookupLast ys k = none) : lookupLast (xs ++ ys) k = lookupLast xs k := by
  rw [lookupLast_append, h]

/-! ### Claim theorems -/

/-- Claim C1: neither the entry-level nor the container-level `has` ever
rejects, for any behaviour of the backend: whenever the backend callback
supplies a (truthy) error the promise resolves to `false`, and it resolves
to `true` exactly when there is no error and the supplied data is not
null. -/
theorem c1_has_never_rejects (client : Nat) (bucket key : String)
    (opts copts : List (String × Value)) (backend : Backend) :
    (∀ e, (Bucket.has ⟨client, bucket⟩ backend key opts).outcome ≠ Except.error e) ∧
    ((backend (Bucket.has ⟨client, bucket⟩ backend key opts).call).1.truthy = true →
      (Bucket.has ⟨client, bucket⟩ backend key opts).outcome = Except.ok false) ∧
    ((Bucket.has ⟨client, bucket⟩ backend key opts).outcome = Except.ok true ↔
      (backend (Bucket.has ⟨client, bucket⟩ backend key opts).call).1.truthy = false ∧
      (backend (Bucket.has ⟨client, bucket⟩ backend key opts).call).2 ≠ Value.vNull) ∧
    (∀ e, (hasBucket client bucket backend copts).outcome ≠ Except.error e) ∧
    ((backend (hasBucket client bucket backend copts).call).1.truthy = true →
      (hasBucket client bucket backend copts).outcome = Except.ok false) ∧
    ((hasBucket client bucket backend copts).outcome = Except.ok true ↔
      (backend (hasBucket client bucket backend copts).call).1.truthy = false ∧
      (backend (hasBucket client bucket backend copts).call).2 ≠ Value.vNull) := by
  refine ⟨?_, ?_, ?_, ?_, ?_, ?_⟩
  · intro e; simp [Bucket.has]
  · intro h; simp only [Bucket.has] at h; simp [Bucket.has, h]
  · simp [Bucket.has, Bool.and_eq_true, Bool.not_eq_true', bne_iff_ne]
  · intro e; simp [hasBucket]
  · intro h; simp only [hasBucket] at h; simp [hasBucket, h]
  · simp [hasBucket, Bool.and_eq_true, Bool.not_eq_true', bne_iff_ne]

/-- Concrete instance of claim C1: a backend error makes entry-level `has`
resolve to `false`. -/
theorem c1_has_never_rejects_witness :
    (Bucket.has ⟨0, "b"⟩ (fun _ => (Value.vStr "boom", Value.vNull)) "k" []).outcome
      = Except.ok false :=
  (c1_has_never_rejects 0 "b" "k" [] []
    (fun _ => (Value.vStr "boom", Value.vNull))).2.1 (by decide)

/-- Claim C2: every operation's outgoing request reads as the caller's
options mapping with the container-identifier field `Bucket` overwritten by
the bound (or argument) container identifier; any field that the operation
does not itself write (`Bucket`, plus `Key`, `Body`, `CopySource` where the
operation writes them) is read exactly as in the caller's options.  In
particular, options `Bucket = "other", Foo = 1` on a handle for `"mine"`
yield a request with `Bucket = "mine"` and `Foo = 1`. -/
theorem c2_options_merging (client : Nat) (bucket key source target : String)
    (body : Value) (opts : List (String × Value)) (backend : Backend) (k : String) :
    (lookupLast (Bucket.location ⟨client, bucket⟩ backend opts).call.params "Bucket"
        = some (Value.vStr bucket)) ∧
    (k ≠ "Bucket" →
      lookupLast (Bucket.location ⟨client, bucket⟩ backend opts).call.params k
        = lookupLast opts k) ∧
    (lookupLast (Bucket.get ⟨client, bucket⟩ backend key opts).call.params "Bucket"
        = some (Value.vStr bucket)) ∧
    (k ≠ "Bucket" → k ≠ "Key" →
      lookupLast (Bucket.get ⟨client, bucket⟩ backend key opts).call.params k
        = lookupLast opts k) ∧
    (lookupLast (Bucket.has ⟨client, bucket⟩ backend key opts).call.params "Bucket"
        = some (Value.vStr bucket)) ∧
    (k ≠ "Bucket" → k ≠ "Key" →
      lookupLast (Bucket.has ⟨client, bucket⟩ backend key opts).call.params k
        = lookupLast opts k) ∧
    (lookupLast (Bucket.head ⟨client, bucket⟩ backend key opts).call.params "Bucket"
        = some (Value.vStr bucket)) ∧
    (k ≠ "Bucket" → k ≠ "Key" →
      lookupLast (Bucket.head ⟨client, bucket⟩ backend key opts).call.params k
        = lookupLast opts k) ∧
    (lookupLast (Bucket.put ⟨client, bucket⟩ backend key body opts).call.params "Bucket"
        = some (Value.vStr bucket)) ∧
    (k ≠ "Bucket" → k ≠ "Key" → k ≠ "Body" →
      lookupLast (Bucket.put ⟨client, bucket⟩ backend key body opts).call.params k
        = lookupLast opts k) ∧
    (lookupLast (Bucket.remove ⟨client, bucket⟩ backend key opts).call.params "Bucket"
        = some (Value.vStr bucket)) ∧
    (k ≠ "Bucket" → k ≠ "Key" →
      lookupLast (Bucket.remove ⟨client, bucket⟩ backend key opts).call.params k
        = lookupLast opts k) ∧
    (lookupLast (Bucket.copy ⟨client, bucket⟩ backend source target opts).call.params "Bucket"
        = some (Value.vStr bucket)) ∧
    (k ≠ "Bucket" → k ≠ "Key" → k ≠ "CopySource" →
      lookupLast (Bucket.copy ⟨client, bucket⟩ backend source target opts).call.params k
        = lookupLast opts k) ∧
    (lookupLast (create client bucket backend opts).call.params "Bucket"
        = some (Value.vStr bucket)) ∧
    (k ≠ "Bucket" →
      lookupLast (create client bucket backend opts).call.params k
        = lookupLast opts k) ∧
    (lookupLast (getBucket client bucket backend opts).call.params "Bucket"
        = some (Value.vStr bucket)) ∧
    (k ≠ "Bucket" →
      lookupLast (getBucket client bucket backend opts).call.params k
        = lookupLast opts k) ∧
    (lookupLast (hasBucket client bucket backend opts).call.params "Bucket"
        = some (Value.vStr bucket)) ∧
    (k ≠ "Bucket" →
      lookupLast (hasBucket client bucket backend opts).call.params k
        = lookupLast opts k) ∧
    (lookupLast (removeBucket client bucket backend opts).call.params "Bucket"
        = some (Value.vStr bucket)) ∧
    (k ≠ "Bucket" →
      lookupLast (removeBucket client bucket backend opts).call.params k
        = lookupLast opts k) ∧
    (lookupLast (Bucket.put ⟨client, "mine"⟩ backend key body
        [("Bucket", Value.vStr "other"), ("Foo", Value.vNum 1)]).call.params "Bucket"
        = some (Value.vStr "mine")) ∧
    (lookupLast (Bucket.put ⟨client, "mine"⟩ backend key body
        [("Bucket", Value.vStr "other"), ("Foo", Value.vNum 1)]).call.params "Foo"
        = some (Value.vNum 1)) := by
  refine ⟨?_, ?_, ?_, ?_, ?_, ?_, ?_, ?_, ?_, ?_, ?_, ?_, ?_, ?_, ?_, ?_, ?_, ?_,
    ?_, ?_, ?_, ?_, ?_, ?_⟩
  · simp only [Bucket.location]
    exact lookupLast_append_hit _ _ _ _ (by simp [lookupLast])
  · intro h1
    simp only [Bucket.location]
    exact lookupLast_append_miss _ _ _ (by simp [lookupLast, Ne.symm h1])
  · simp only [Bucket.get]
    exact lookupLast_append_hit _ _ _ _ (by simp [lookupLast])
  · intro h1 h2
    simp only [Bucket.get]
    exact lookupLast_append_miss _ _ _ (by simp [lookupLast, Ne.symm h1, Ne.symm h2])
  · simp only [Bucket.has]
    exact lookupLast_append_hit _ _ _ _ (by simp [lookupLast])
  · intro h1 h2
    simp only [Bucket.has]
    exact lookupLast_append_miss _ _ _ (by simp [lookupLast, Ne.symm h1, Ne.symm h2])
  · simp only [Bucket.head]
    exact lookupLast_append_hit _ _ _ _ (by simp [lookupLast])
  · intro h1 h2
    simp only [Bucket.head]
    exact lookupLast_append_miss _ _ _ (by simp [lookupLast, Ne.symm h1, Ne.symm h2])
  · simp only [Bucket.put]
    exact lookupLast_append_hit _ _ _ _ (by simp [lookupLast])
  · intro h1 h2 h3
    simp only [Bucket.put]
    exact lookupLast_append_miss _ _ _
      (by simp [lookupLast, Ne.symm h1, Ne.symm h2, Ne.symm h3])
  · simp only [Bucket.remove]
    exact lookupLast_append_hit _ _ _ _ (by simp [lookupLast])
  · intro h1 h2
    simp only [Bucket.remove]
    exact lookupLast_append_miss _ _ _ (by simp [lookupLast, Ne.symm h1, Ne.symm h2])
  · simp only [Bucket.copy]
    exact lookupLast_append_hit _ _ _ _ (by simp [lookupLast])
  · intro h1 h2 h3
    simp only [Bucket.copy]
    exact lookupLast_append_miss _ _ _
      (by simp [lookupLast, Ne.symm h1, Ne.symm h2, Ne.symm h3])
  · simp only [create]
    exact lookupLast_append_hit _ _ _ _ (by simp [lookupLast])
  · intro h1
    simp only [create]
    exact lookupLast_append_miss _ _ _ (by simp [lookupLast, Ne.symm h1])
  · simp only [getBucket]
    exact lookupLast_append_hit _ _ _ _ (by simp [lookupLast])
  · intro h1
    simp only [getBucket]
    exact lookupLast_append_miss _ _ _ (by simp [lookupLast, Ne.symm h1])
  · simp only [hasBucket]
    exact lookupLast_append_hit _ _ _ _ (by simp [lookupLast])
  · intro h1
    simp only [hasBucket]
    exact lookupLast_append_miss _ _ _ (by simp [lookupLast, Ne.symm h1])
  · simp only [removeBucket]
    exact lookupLast_append_hit _ _ _ _ (by simp [lookupLast])
  · intro h1
    simp only [removeBucket]
    exact lookupLast_append_miss _ _ _ (by simp [lookupLast, Ne.symm h1])
  · simp [Bucket.put, lookupLast]
  · simp [Bucket.put, lookupLast]

/-- Concrete instance of claim C2: on a handle for `"mine"` with options
carrying `Bucket = "other"` and `Foo = 1`, a stored request reads the field
`Foo` exactly as the options mapping does. -/
theorem c2_options_merging_witness :
    lookupLast (Bucket.put ⟨0, "mine"⟩ (fun _ => (Value.vNull, Value.vNull)) "hello"
        (Value.vStr "x") [("Bucket", Value.vStr "other"), ("Foo", Value.vNum 1)]).call.params
        "Foo"
      = lookupLast [("Bucket", Value.vStr "other"), ("Foo", Value.vNum 1)] "Foo" :=
  (c2_options_merging 0 "mine" "hello" "s" "t" (Value.vStr "x")
      [("Bucket", Value.vStr "other"), ("Foo", Value.vNum 1)]
      (fun _ => (Value.vNull, Value.vNull)) "Foo").2.2.2.2.2.2.2.2.2.1
    (by decide) (by decide) (by decide)

/-- Claim C3: `copy(source, target)` on a handle bound to container `b`
issues a `copyObject` call whose `CopySource` field is the string
`b ++ "/" ++ source`, whose destination `Key` equals `target`, and whose
destination `Bucket` equals `b`. -/
theorem c3_copy_request (client : Nat) (bucket source target : String)
    (opts : List (String × Value)) (backend : Backend) :
    (Bucket.copy ⟨client, bucket⟩ backend source target opts).call.op = "copyObject" ∧
    lookupLast (Bucket.copy ⟨client, bucket⟩ backend source target opts).call.params
        "CopySource" = some (Value.vStr (bucket ++ "/" ++ source)) ∧
    lookupLast (Bucket.copy ⟨client, bucket⟩ backend source target opts).call.params
        "Key" = some (Value.vStr target) ∧
    lookupLast (Bucket.copy ⟨client, bucket⟩ backend source target opts).call.params
        "Bucket" = some (Value.vStr bucket) := by
  refine ⟨rfl, ?_, ?_, ?_⟩ <;>
  · simp only [Bucket.copy]
    exact lookupLast_append_hit _ _ _ _ (by simp [lookupLast])

/-- Claim C4: container-level `create` and `get` resolve to a fresh handle
bound to exactly the given client and container identifier when the backend
reports no error, and reject with the backend's exact error value when it
reports one. -/
theorem c4_lifecycle_create_get (client : Nat) (bucket : String)
    (opts : List (String × Value)) (err data : Value) :
    (err.truthy = false →
      (create client bucket (fun _ => (err, data)) opts).outcome
        = Except.ok ⟨client, bucket⟩) ∧
    (err.truthy = true →
      (create client bucket (fun _ => (err, data)) opts).outcome = Except.error err) ∧
    (err.truthy = false →
      (getBucket client bucket (fun _ => (err, data)) opts).outcome
        = Except.ok ⟨client, bucket⟩) ∧
    (err.truthy = true →
      (getBucket client bucket (fun _ => (err, data)) opts).outcome
        = Except.error err) := by
  refine ⟨?_, ?_, ?_, ?_⟩ <;> intro h <;> simp [create, getBucket, h]

/-- Concrete instance of claim C4: a backend that reports no error makes
`create` resolve to the handle bound to the given client and bucket. -/
theorem c4_lifecycle_create_get_witness :
    (create 0 "b" (fun _ => (Value.vNull, Value.vNull)) []).outcome
      = Except.ok ⟨0, "b"⟩ :=
  (c4_lifecycle_create_get 0 "b" [] Value.vNull Value.vNull).1 (by decide)

/-- Claim C5: a handle obtained from a successful `create` with container
identifier `bucket` carries that identifier, and every entry operation on it
places exactly that identifier in the `Bucket` field of its outgoing
request. -/
theorem c5_handle_injects_identifier (client : Nat) (bucket key source target : String)
    (body : Value) (opts copts : List (String × Value)) (backend backend2 : Backend)
    (h : Bucket) (hc : (create client bucket backend copts).outcome = Except.ok h) :
    h.bucket = bucket ∧
    lookupLast (h.location backend2 opts).call.params "Bucket"
      = some (Value.vStr bucket) ∧
    lookupLast (h.get backend2 key opts).call.params "Bucket"
      = some (Value.vStr bucket) ∧
    lookupLast (h.has backend2 key opts).call.params "Bucket"
      = some (Value.vStr bucket) ∧
    lookupLast (h.head backend2 key opts).call.params "Bucket"
      = some (Value.vStr bucket) ∧
    lookupLast (h.put backend2 key body opts).call.params "Bucket"
      = some (Value.vStr bucket) ∧
    lookupLast (h.remove backend2 key opts).call.params "Bucket"
      = some (Value.vStr bucket) ∧
    lookupLast (h.copy backend2 source target opts).call.params "Bucket"
      = some (Value.vStr bucket) := by
  have hb : h = ⟨client, bucket⟩ := by
    simp only [create] at hc
    split at hc
    · exact absurd hc (by simp)
    · exact (Except.ok.injEq _ _).mp hc.symm ▸ rfl
  subst hb
  refine ⟨rfl, ?_, ?_, ?_, ?_, ?_, ?_, ?_⟩ <;>
  · simp only [Bucket.location, Bucket.get, Bucket.has, Bucket.head, Bucket.put,
      Bucket.remove, Bucket.copy]
    exact lookupLast_append_hit _ _ _ _ (by simp [lookupLast])

/-- Concrete instance of claim C5: the handle from a successful `create`
with bucket `"b"` carries the identifier `"b"`. -/
theorem c5_handle_injects_identifier_witness : (Bucket.mk 0 "b").bucket = "b" :=
  (c5_handle_injects_identifier 0 "b" "k" "s" "t" Value.vNull [] []
    (fun _ => (Value.vNull, Value.vNull)) (fun _ => (Value.vNull, Value.vNull))
    ⟨0, "b"⟩ rfl).1

/-- Claim C6: every pass-through operation (`location`, entry-level `get`,
`head`, `put`, `remove`, `copy`, and container-level `create`, `get`,
`remove`) rejects with the backend's error value unchanged whenever the
backend callback supplies a (truthy) error. -/
theorem c6_error_passthrough (client : Nat) (bucket key source target : String)
    (body err data : Value) (opts : List (String × Value))
    (h : err.truthy = true) :
    (Bucket.location ⟨client, bucket⟩ (fun _ => (err, data)) opts).outcome
      = Except.error err ∧
    (Bucket.get ⟨client, bucket⟩ (fun _ => (err, data)) key opts).outcome
      = Except.error err ∧
    (Bucket.head ⟨client, bucket⟩ (fun _ => (err, data)) key opts).outcome
      = Except.error err ∧
    (Bucket.put ⟨client, bucket⟩ (fun _ => (err, data)) key body opts).outcome
      = Except.error err ∧
    (Bucket.remove ⟨client, bucket⟩ (fun _ => (err, data)) key opts).outcome
      = Except.error err ∧
    (Bucket.copy ⟨client, bucket⟩ (fun _ => (err, data)) source target opts).outcome
      = Except.error err ∧
    (create client bucket (fun _ => (err, data)) opts).outcome = Except.error err ∧
    (getBucket client bucket (fun _ => (err, data)) opts).outcome = Except.error err ∧
    (removeBucket client bucket (fun _ => (err, data)) opts).outcome
      = Except.error err := by
  simp [Bucket.location, Bucket.get, Bucket.head, Bucket.put, Bucket.remove,
    Bucket.copy, create, getBucket, removeBucket, h]

/-- Concrete instance of claim C6: a backend error `"boom"` is forwarded
unchanged as the rejection of entry-level `remove`. -/
theorem c6_error_passthrough_witness :
    (Bucket.remove ⟨0, "b"⟩ (fun _ => (Value.vStr "boom", Value.vNull)) "k" []).outcome
      = Except.error (Value.vStr "boom") :=
  (c6_error_passthrough 0 "b" "k" "s" "t" Value.vNull (Value.vStr "boom")
    Value.vNull [] (by decide)).2.2.2.2.1

/-- Claim C7: entry-level and container-level `remove` resolve with no value
whenever the backend reports no error, regardless of any data the backend
supplies (the callback ignores the data argument entirely). -/
theorem c7_remove_void (client : Nat) (bucket key : String) (err data : Value)
    (opts copts : List (String × Value)) (h : err.truthy = false) :
    (Bucket.remove ⟨client, bucket⟩ (fun _ => (err, data)) key opts).outcome
      = Except.ok () ∧
    (removeBucket client bucket (fun _ => (err, data)) copts).outcome
      = Except.ok () := by
  simp [Bucket.remove, removeBucket, h]

/-- Concrete instance of claim C7: `remove("x.txt")` against a backend that
returns no error (and stray data) resolves with no value. -/
theorem c7_remove_void_witness :
    (Bucket.remove ⟨0, "b"⟩ (fun _ => (Value.vNull, Value.vStr "junk")) "x.txt" []).outcome
      = Except.ok () :=
  (c7_remove_void 0 "b" "x.txt" Value.vNull (Value.vStr "junk") [] [] (by decide)).1

/-- Claim C8: a handle's state is never mutated — every entry operation
returns the handle unchanged — and the outgoing call is constructed purely
from the bound container identifier, the arguments and the options: two
handles with the same identifier (even with different clients) issue
identical calls. -/
theorem c8_handle_immutable (b b2 : Bucket) (backend : Backend)
    (key source target : String) (body : Value) (opts : List (String × Value))
    (h : b.bucket = b2.bucket) :
    (b.location backend opts).self = b ∧
    (b.get backend key opts).self = b ∧
    (b.has backend key opts).self = b ∧
    (b.head backend key opts).self = b ∧
    (b.put backend key body opts).self = b ∧
    (b.remove backend key opts).self = b ∧
    (b.copy backend source target opts).self = b ∧
    (b.location backend opts).call = (b2.location backend opts).call ∧
    (b.get backend key opts).call = (b2.get backend key opts).call ∧
    (b.has backend key opts).call = (b2.has backend key opts).call ∧
    (b.head backend key opts).call = (b2.head backend key opts).call ∧
    (b.put backend key body opts).call = (b2.put backend key body opts).call ∧
    (b.remove backend key opts).call = (b2.remove backend key opts).call ∧
    (b.copy backend source target opts).call = (b2.copy backend source target opts).call := by
  simp [Bucket.location, Bucket.get, Bucket.has, Bucket.head, Bucket.put,
    Bucket.remove, Bucket.copy, h]

/-- Concrete instance of claim C8: two handles for bucket `"b"` held by
different clients issue the same `location` call. -/
theorem c8_handle_immutable_witness :
    (Bucket.location ⟨0, "b"⟩ (fun _ => (Value.vNull, Value.vNull)) []).call
      = (Bucket.location ⟨1, "b"⟩ (fun _ => (Value.vNull, Value.vNull)) []).call :=
  (c8_handle_immutable ⟨0, "b"⟩ ⟨1, "b"⟩ (fun _ => (Value.vNull, Value.vNull))
    "k" "s" "t" Value.vNull [] rfl).2.2.2.2.2.2.2.1

/-- Claim C9: the `Body` field of a `put(key, body, opts)` request always
equals the `body` argument, even when the caller's options mapping carries
its own `Body` binding — the literal field written after the spread takes
precedence. -/
theorem c9_put_body_overrides (client : Nat) (bucket key : String) (body : Value)
    (opts : List (String × Value)) (backend : Backend) :
    lookupLast (Bucket.put ⟨client, bucket⟩ backend key body opts).call.params "Body"
      = some body ∧
    lookupLast (Bucket.put ⟨client, bucket⟩ backend key body
        [("Body", Value.vStr "fromOpts")]).call.params "Body" = some body := by
  constructor <;>
  · simp only [Bucket.put]
    exact lookupLast_append_hit _ _ _ _ (by simp [lookupLast])

/-- Claim C10: when the backend invokes the callback with no error and an
undefined data value, both `has` variants resolve to `true`: the success
check compares data only against `null`, and `undefined` is not strictly
equal to `null`. -/
theorem c10_has_undefined_data (client : Nat) (bucket key : String)
    (opts copts : List (String × Value)) :
    (Bucket.has ⟨client, bucket⟩ (fun _ => (Value.vUndefined, Value.vUndefined))
        key opts).outcome = Except.ok true ∧
    (hasBucket client bucket (fun _ => (Value.vUndefined, Value.vUndefined))
        copts).outcome = Except.ok true := by
  constructor <;> simp [Bucket.has, hasBucket, Value.truthy]

end Esthree
